import Mathlib

/-!
Shallow embedding of the DocuFill CORE (philbertloekman/docufill):
  - src/src/utils/excel_reader.py   (ExcelConfigReader)
  - src/src/utils/document_filler.py (DocumentFiller)
  - src/app.py                      (DocuFillAPI.validate_template)
  - src/src/constants/excel_constants.py

A pandas DataFrame is modelled as a list of column names plus rows of
cells aligned with the columns; a missing/empty spreadsheet cell is the
NaN sentinel (pandas reads blank cells as float nan).  Numeric cells are
modelled by integers: only their truthiness and decimal rendering matter
to the code under study.  Filesystem and subprocess effects of the
document filler are modelled by an explicit environment and effect lists.
-/

deriving instance DecidableEq for Except

namespace DocuFill

/-- Python whitespace as stripped by str.strip(): space, tab, newline,
carriage return, vertical tab, form feed. -/
def pyWhite (c : Char) : Bool :=
  c == ' ' || c == '\t' || c == '\n' || c == '\r' || c.toNat == 11 || c.toNat == 12

/-- Python str.strip(): drop leading and trailing whitespace. -/
def pyStrip (s : String) : String :=
  String.mk (((s.data.dropWhile pyWhite).reverse.dropWhile pyWhite).reverse)

/-- Python str.upper() (ASCII, which covers the tokens in play). -/
def pyUpper (s : String) : String := String.mk (s.data.map Char.toUpper)

/-- Python str.lower() (ASCII, which covers the tokens in play). -/
def pyLower (s : String) : String := String.mk (s.data.map Char.toLower)

/-- Python str.startswith(pat). -/
def pyStartswith (s pat : String) : Bool := pat.data.isPrefixOf s.data

/-- Python sep.join(parts). -/
def pyJoin (sep : String) : List String → String
  | [] => ""
  | [x] => x
  | x :: y :: xs => x ++ sep ++ pyJoin sep (y :: xs)

/-- Cell values a pandas DataFrame cell can hold in this model: an Excel
boolean, a string, a numeric value (modelled as an integer), or the NaN
sentinel pandas uses for a blank/missing cell. -/
inductive Cell where
  | cBool (b : Bool)
  | cStr (s : String)
  | cInt (n : Int)
  | cNaN
deriving DecidableEq, Repr

/-- Python str() applied to a cell value: True/False for booleans, the
string itself, the decimal rendering of a number, and "nan" for the
missing-cell sentinel (str(float(&apos;nan&apos;)) = &apos;nan&apos;). -/
def pyStr : Cell → String
  | .cBool true => "True"
  | .cBool false => "False"
  | .cStr s => s
  | .cInt n => toString n
  | .cNaN => "nan"

/-- A pandas DataFrame: column names, and rows of cells aligned with the
columns (pandas pads a short row with NaN, hence the default on access). -/
structure DataFrame where
  columns : List String
  rows : List (List Cell)
deriving DecidableEq, Repr

/-- pandas Series.get(col, default) on a row whose index is the column
list: the cell at the column position when the column exists (NaN when
the row is short), the default only when the column is absent. -/
def rowGet (cols : List String) (row : List Cell) (col : String) (dflt : Cell) : Cell :=
  match cols.findIdx? (fun c => c == col) with
  | some i => row.getD i Cell.cNaN
  | none => dflt

/-- excel_constants.EXCEL_REQUIRED_COLUMNS. -/
def EXCEL_REQUIRED_COLUMNS : List String := ["label", "key"]

/-- excel_constants.EXCEL_MULTIPLE_COLUMNS, in preference order. -/
def EXCEL_MULTIPLE_COLUMNS : List String := ["multiple", "type"]

/-- Single-quote character, used inside error-message literals. -/
def sq : String := String.mk [Char.ofNat 39]

/-- ExcelConfigReader._parse_boolean: booleans pass through; strings are
trimmed and upper-cased then checked against the TRUE/FALSE mapping, the
extra true tokens YES/Y/1 and false tokens NO/N/0/empty, any other string
falling to the default False; numbers coerce by truthiness.  The NaN
sentinel is a float in Python and float(&apos;nan&apos;) is truthy, so it
yields True (the callers guard it away). -/
def parse_boolean : Cell → Bool
  | .cBool b => b
  | .cStr s =>
    let u := pyUpper (pyStrip s)
    if u == "TRUE" then true
    else if u == "FALSE" then false
    else if ["YES", "Y", "1"].contains u then true
    else if ["NO", "N", "0", ""].contains u then false
    else false
  | .cInt n => n != 0
  | .cNaN => true

/-- Loop body of ExcelConfigReader._get_multiple_value: walk the accepted
column names in order; the first column that is present in the row index
and whose cell stringifies (trimmed, lower-cased) to neither "nan" nor ""
decides the flag via parse_boolean; otherwise fall through, defaulting to
False.  (The auto-capitalisation write-back in the source mutates a local
Series copy and has no observable effect.) -/
def multiple_loop (cols : List String) (row : List Cell) : List String → Bool
  | [] => false
  | c :: rest =>
    if cols.contains c then
      let value := rowGet cols row c Cell.cNaN
      let sv := pyLower (pyStrip (pyStr value))
      if sv != "nan" && sv != "" then parse_boolean value
      else multiple_loop cols row rest
    else multiple_loop cols row rest

/-- ExcelConfigReader._get_multiple_value. -/
def get_multiple_value (cols : List String) (row : List Cell) : Bool :=
  multiple_loop cols row EXCEL_MULTIPLE_COLUMNS

/-- A parsed field dictionary: label, key, multiple, note. -/
structure Field where
  label : String
  key : String
  multiple : Bool
  note : String
deriving DecidableEq, Repr

/-- The trimmed stringified key cell of a row
(str(row.get(&apos;key&apos;, &apos;&apos;)).strip()). -/
def rowKey (cols : List String) (row : List Cell) : String :=
  pyStrip (pyStr (rowGet cols row "key" (Cell.cStr "")))

/-- Per-row step of ExcelConfigReader._parse_dataframe: skip the row when
the trimmed key is empty or lower-cases to "nan"; otherwise build the
field dictionary.  Label uses row.get(&apos;label&apos;, key): the key
default applies only when the label column is absent (a NaN label cell
stringifies to "nan").  Note uses row.get(&apos;note&apos;, &apos;&apos;). -/
def parse_row (cols : List String) (row : List Cell) : Option Field :=
  let key := rowKey cols row
  if key == "" || pyLower key == "nan" then none
  else some
    { label := pyStr (rowGet cols row "label" (Cell.cStr key))
      key := key
      multiple := get_multiple_value cols row
      note := pyStr (rowGet cols row "note" (Cell.cStr "")) }

/-- ExcelConfigReader._validate_columns: error listing the missing
required columns when any is absent. -/
def validate_columns (df : DataFrame) : Except String Unit :=
  let missing := EXCEL_REQUIRED_COLUMNS.filter (fun c => !df.columns.contains c)
  if missing.isEmpty then Except.ok ()
  else Except.error
    ("Missing required columns: " ++ pyJoin ", " missing ++
     "\nRequired columns: " ++ pyJoin ", " EXCEL_REQUIRED_COLUMNS ++
     "\nFound columns: " ++ pyJoin ", " df.columns)

/-- ExcelConfigReader._parse_dataframe: validate the columns, then keep
the non-skipped rows in spreadsheet order. -/
def parse_dataframe (df : DataFrame) : Except String (List Field) :=
  match validate_columns df with
  | Except.error e => Except.error e
  | Except.ok _ => Except.ok (df.rows.filterMap (parse_row df.columns))

/-- ExcelConfigReader.read_fields: parse the DataFrame, wrapping any
failure as the ValueError("Error reading Excel file: ...") the source
raises.  (Reading the file itself is outside the model; the DataFrame is
the input.) -/
def read_fields (df : DataFrame) : Except String (List Field) :=
  match parse_dataframe df with
  | Except.ok fs => Except.ok fs
  | Except.error e => Except.error ("Error reading Excel file: " ++ e)

/-- Per-cell check of ExcelConfigReader._validate_multiple_column: a
blank or NaN multiple cell passes; otherwise the cell must be TRUE or
FALSE up to trim and case, any other token yielding the error for that
row. -/
def multiple_row_error (rownum : Nat) (value : Cell) : Option String :=
  if value == Cell.cNaN || pyStrip (pyStr value) == "" then none
  else if pyUpper (pyStrip (pyStr value)) != "TRUE"
      && pyUpper (pyStrip (pyStr value)) != "FALSE" then
    some ("Row " ++ (toString (rownum + 2) ++ ": Invalid " ++ sq ++ "multiple" ++ sq ++
          " value " ++ sq ++ pyStr value ++ sq ++ ". Must be TRUE or FALSE."))
  else none

/-- Body of _validate_multiple_column: the check on one multiple-column
cell is multiple_row_error above; when the column exists each row is
checked with its zero-based index, which reports one-based Excel row
numbers counting the header. -/
def validate_multiple_column (df : DataFrame) : List String :=
  if df.columns.contains "multiple" then
    df.rows.enum.filterMap (fun p =>
      multiple_row_error p.1 (rowGet df.columns p.2 "multiple" Cell.cNaN))
  else []

/-- The key-format check re.match(r) with pattern anchored
[a-zA-Z0-9_]+ : nonempty, every character an ASCII letter, digit or
underscore.  (Python re would also accept a single trailing newline
after the dollar anchor, unreachable here since keys are stripped.) -/
def is_valid_key (s : String) : Bool :=
  !s.data.isEmpty && s.data.all (fun c => c.isAlphanum || c == '_')

/-- The validation report dictionary: valid, errors, warnings. -/
structure ValidationReport where
  valid : Bool
  errors : List String
  warnings : List String
deriving DecidableEq, Repr

/-- ExcelConfigReader.validate_config: multiple-column token errors, then
(on a successful field read) the no-fields error, one aggregated
duplicate-keys error, the empty-label warning, and one error per
badly-formatted key; a read failure is caught and appended after the
multiple-column errors.  Python joins set(duplicates), whose iteration
order is unspecified; the model joins the deduplicated list (order of
the joined names is not relied on by any claim). -/
def validate_config (df : DataFrame) : ValidationReport :=
  let multiple_errors := validate_multiple_column df
  match read_fields df with
  | Except.error e =>
    let errors := multiple_errors ++ ["Validation error: " ++ e]
    { valid := errors.isEmpty, errors := errors, warnings := [] }
  | Except.ok fields =>
    let e1 := multiple_errors ++
      (if fields.length == 0 then ["No valid fields found in configuration"] else [])
    let keys := fields.map Field.key
    let duplicates := keys.filter (fun k => 1 < keys.count k)
    let e2 := e1 ++
      (if !duplicates.isEmpty then
        ["Duplicate field keys found: " ++ pyJoin ", " duplicates.dedup] else [])
    let empty_labels := (fields.filter (fun f => pyStrip f.label == "")).map Field.key
    let warnings :=
      if !empty_labels.isEmpty then
        ["Fields with empty labels: " ++ pyJoin ", " empty_labels] else []
    let key_errors := (fields.filter (fun f => !is_valid_key f.key)).map
      (fun f => "Invalid key format " ++ (sq ++ f.key ++ sq ++
        " - use only letters, numbers, and underscores"))
    let errors := e2 ++ key_errors
    { valid := errors.isEmpty, errors := errors, warnings := warnings }

/-- Whether pat occurs as a contiguous substring of s. -/
def containsSub (s pat : String) : Bool :=
  (List.range (s.data.length + 1)).any (fun i => pat.data.isPrefixOf (s.data.drop i))

/-- pathlib suffix of a file name: the final dotted extension with its
dot, empty for a name with no dot, a name ending in a dot, or a bare
leading-dot (hidden) name. -/
def fileSuffix (name : String) : String :=
  let rev := name.data.reverse
  let extRev := rev.takeWhile (fun c => c != '.')
  if extRev.length == rev.length then ""
  else if extRev.isEmpty then ""
  else if extRev.length + 1 == rev.length then ""
  else String.mk ('.' :: extRev.reverse)

/-- DocuFillAPI.validate_template (app.py), after the folder-existence
guard: a missing config short-circuits; otherwise validate_config runs,
doc files are enumerated with glob over the pattern star-dot-doc-star —
any name containing ".doc", with NO exclusion of names that start with
the temp marker — then the zero-document error, the legacy-.doc warning
and the no-.docx error accumulate, and valid is recomputed from errors.
The folder is the list of its file names; the found config spreadsheet
is passed as a DataFrame (find_config_file reads the filesystem). -/
def validate_template (folder_files : List String) (config : Option DataFrame) :
    ValidationReport :=
  match config with
  | none =>
    { valid := false, errors := ["No config.xlsx file found in template folder"],
      warnings := [] }
  | some df =>
    let validation := validate_config df
    let doc_files := folder_files.filter (fun n => containsSub n ".doc")
    let e1 := validation.errors ++
      (if doc_files.isEmpty then
        ["No Word documents (.doc or .docx) found in template folder"] else [])
    let doc_files_legacy := doc_files.filter (fun n => pyLower (fileSuffix n) == ".doc")
    let warnings := validation.warnings ++
      (if !doc_files_legacy.isEmpty then
        ["Found " ++ toString doc_files_legacy.length ++
         " .doc file(s) - these cannot be filled automatically. Convert to .docx for full functionality."]
       else [])
    let docx_files := doc_files.filter (fun n => pyLower (fileSuffix n) == ".docx")
    let e2 := e1 ++
      (if docx_files.isEmpty then
        ["No .docx files found - at least one .docx file is required for document filling"]
       else [])
    { valid := e2.isEmpty, errors := e2, warnings := warnings }

/-- Environment for DocumentFiller: which template files exist (by name
inside the template directory), their byte content, whether the external
LibreOffice conversion of a given .doc file succeeds (conversion tool
missing, 30-second timeout, nonzero exit and no-output-produced all
collapse to failure, as in _convert_doc_to_docx), and the outcome of the
docxtpl render-and-save of a given template (an exception message on
failure). -/
structure FillEnv where
  fileExists : String → Bool
  content : String → String
  convertOk : String → Bool
  renderOk : String → Except String Unit

/-- A document written to the output folder: either rendered by docxtpl
from the named template, or a byte-for-byte copy of the given content. -/
inductive OutDoc where
  | rendered (templateName : String)
  | copied (bytes : String)
deriving DecidableEq, Repr

/-- Outcome of DocumentFiller.fill_document for one file: the written
document plus whether the legacy-fallback warning was printed, or the
message of the exception that escaped. -/
inductive OneResult where
  | success (out : OutDoc) (warned : Bool)
  | failure (msg : String)
deriving DecidableEq, Repr

/-- The console warning _fill_doc_file prints when it falls back to
copying a legacy file (first printed line). -/
def docWarning (name : String) : String :=
  "Warning: .doc files cannot be filled automatically. Copying " ++ name ++
  " without filling placeholders."

/-- DocumentFiller.fill_document: missing template raises
FileNotFoundError (unwrapped); a name whose lower-cased suffix is ".doc"
goes through _fill_doc_file (convert then fill, else copy-and-warn,
still returning success); anything else through _fill_docx_file; an
exception from either branch is re-raised wrapped as
"Error filling document: ...". -/
def fill_document (env : FillEnv) (name : String) : OneResult :=
  if !env.fileExists name then
    OneResult.failure ("Template document not found: " ++ name)
  else if pyLower (fileSuffix name) == ".doc" then
    if env.convertOk name then
      match env.renderOk name with
      | Except.ok _ => OneResult.success (OutDoc.rendered name) false
      | Except.error e => OneResult.failure ("Error filling document: " ++ e)
    else
      OneResult.success (OutDoc.copied (env.content name)) true
  else
    match env.renderOk name with
    | Except.ok _ => OneResult.success (OutDoc.rendered name) false
    | Except.error e => OneResult.failure ("Error filling document: " ++ e)

/-- The loop state of fill_multiple_documents: filled relative paths,
error strings, written output files (path to document), and printed
warnings, each in processing order. -/
structure FillAcc where
  filled : List String
  errors : List String
  outputs : List (String × OutDoc)
  warnings : List String
deriving DecidableEq, Repr

/-- The per-file loop of DocumentFiller.fill_multiple_documents: skip
names starting with the temp marker, record "Template not found" and
continue when the source is missing, otherwise fill and record either
the relative path (prefixed by the timestamped folder when a template
name was given) or the caught exception as
"Error filling name: ...". -/
def fill_loop (env : FillEnv) (output_folder : String) (tfold : Option String) :
    List String → FillAcc
  | [] => { filled := [], errors := [], outputs := [], warnings := [] }
  | f :: rest =>
    let acc := fill_loop env output_folder tfold rest
    if pyStartswith f "~$" then acc
    else if !env.fileExists f then
      { acc with errors := ("Template not found: " ++ f) :: acc.errors }
    else
      match fill_document env f with
      | OneResult.success out w =>
        let rel := match tfold with
          | some tf => tf ++ "/" ++ f
          | none => f
        { acc with
          filled := rel :: acc.filled
          outputs := (output_folder ++ "/" ++ f, out) :: acc.outputs
          warnings := if w then docWarning f :: acc.warnings else acc.warnings }
      | OneResult.failure msg =>
        { acc with errors := ("Error filling " ++ f ++ ": " ++ msg) :: acc.errors }

/-- The result dictionary of fill_multiple_documents. -/
structure FillResult where
  success : Bool
  filled_files : List String
  errors : List String
  output_folder : String
deriving DecidableEq, Repr

/-- The observable outcome of a fill_multiple_documents call: the result
dictionary, the directories created on disk, the documents written, and
the console warnings. -/
structure FillOutput where
  result : FillResult
  created_dirs : List String
  outputs : List (String × OutDoc)
  warnings_printed : List String
deriving DecidableEq, Repr

/-- DocumentFiller.fill_multiple_documents: the output folder is
output_dir/timestamp_templateName (the bare output_dir when no template
name is given) and is created unconditionally before the loop; success
is len(filled_files) > 0.  The timestamp is a caller-supplied string
(the datetime.now default is outside the model); paths are joined
textually with "/". -/
def fill_multiple_documents (env : FillEnv) (output_dir : String)
    (docx_files : List String) (timestamp : String) (template_name : Option String) :
    FillOutput :=
  let tfold := template_name.map (fun n => timestamp ++ "_" ++ n)
  let output_folder := match tfold with
    | some t => output_dir ++ "/" ++ t
    | none => output_dir
  let acc := fill_loop env output_folder tfold docx_files
  { result :=
      { success := decide (0 < acc.filled.length)
        filled_files := acc.filled
        errors := acc.errors
        output_folder := output_folder }
    created_dirs := [output_folder]
    outputs := acc.outputs
    warnings_printed := acc.warnings }

/-- A cell counts as blank for the multiple-indicator lookup when its
trimmed, lower-cased stringification is "nan" or empty (the guard in
_get_multiple_value). -/
def cellNonBlank (c : Cell) : Bool :=
  pyLower (pyStrip (pyStr c)) != "nan" && pyLower (pyStrip (pyStr c)) != ""

/-- Stated from the spec wording, for comparison with the code: a row
said to produce a descriptor — its trimmed stringified key is non-empty
and is not the literal missing-cell sentinel string "nan". -/
def specKeptRow (cols : List String) (row : List Cell) : Bool :=
  rowKey cols row != "" && rowKey cols row != "nan"

/-- The row kept by the code: trimmed stringified key non-empty and not
case-insensitively equal to "nan". -/
def codeKeptRow (cols : List String) (row : List Cell) : Bool :=
  !(rowKey cols row == "" || pyLower (rowKey cols row) == "nan")

/-- Concrete fill environment for witnesses: only "missing.docx" is
absent, conversion always fails, rendering always succeeds. -/
def envW : FillEnv :=
  { fileExists := fun n => n != "missing.docx"
    content := fun n => "BYTES:" ++ n
    convertOk := fun _ => false
    renderOk := fun _ => Except.ok () }

/-- Spreadsheet with both required columns whose single row has key cell
"NAN": non-empty, not the literal sentinel "nan", yet skipped. -/
def dfC2 : DataFrame := ⟨["label", "key"], [[Cell.cStr "L", Cell.cStr "NAN"]]⟩

/-- Spreadsheet missing the required key column. -/
def dfBadC2 : DataFrame := ⟨["label"], [[Cell.cStr "A"]]⟩

/-- Spreadsheet with both required columns, one real row and one row
with a blank key cell. -/
def dfGoodC2 : DataFrame :=
  ⟨["label", "key"],
   [[Cell.cStr "Client", Cell.cStr "client_name"], [Cell.cNaN, Cell.cNaN]]⟩

/-- The single row of dfC4: key cell " NaN " trims to "NaN". -/
def rowC4 : List Cell := [Cell.cStr "L", Cell.cStr " NaN "]

/-- Spreadsheet whose single row has a key trimming to "NaN". -/
def dfC4 : DataFrame := ⟨["label", "key"], [rowC4]⟩

/-- Spreadsheet whose single row has an empty (NaN) label cell. -/
def dfC5 : DataFrame := ⟨["label", "key"], [[Cell.cNaN, Cell.cStr "client_name"]]⟩

/-- Spreadsheet with three rows sharing key k1 and two sharing k2. -/
def dfC6 : DataFrame :=
  ⟨["label", "key"],
   [[Cell.cStr "A", Cell.cStr "k1"], [Cell.cStr "B", Cell.cStr "k1"],
    [Cell.cStr "C", Cell.cStr "k1"], [Cell.cStr "D", Cell.cStr "k2"],
    [Cell.cStr "E", Cell.cStr "k2"]]⟩

/-- The single row of dfC7: multiple cell blank (NaN), type cell TRUE. -/
def rowC7 : List Cell := [Cell.cStr "L", Cell.cStr "k", Cell.cNaN, Cell.cStr "TRUE"]

/-- Spreadsheet with both a multiple and a type column where the
multiple cell is blank and the type cell holds TRUE. -/
def dfC7 : DataFrame := ⟨["label", "key", "multiple", "type"], [rowC7]⟩

/-- A structurally valid config spreadsheet: one well-formed field. -/
def dfC8 : DataFrame := ⟨["label", "key"], [[Cell.cStr "Client", Cell.cStr "client_name"]]⟩

/-- Claim C2 (counterexample): a spreadsheet with both required columns
whose single row has key cell "NAN" — non-empty and not the literal
sentinel string "nan", so the claim promises one descriptor — but
read_fields succeeds with an empty list: the code also skips keys that
are only case-insensitively "nan". -/
theorem c2_counterexample :
    EXCEL_REQUIRED_COLUMNS.all (fun c => dfC2.columns.contains c) = true ∧
    dfC2.rows.countP (specKeptRow dfC2.columns) = 1 ∧
    read_fields dfC2 = Except.ok [] := by
  decide

/-- Claim C4 (counterexample): the single row of dfC4 has trimmed key
"NaN", which is neither empty nor equal to the literal string "nan", yet
the row is excluded from the result — the exclusion test lower-cases the
key first, so the claimed "exactly when" equivalence fails. -/
theorem c4_counterexample :
    rowKey dfC4.columns rowC4 = "NaN" ∧
    ("NaN" : String) ≠ "" ∧ ("NaN" : String) ≠ "nan" ∧
    read_fields dfC4 = Except.ok [] := by
  decide

/-- Claim C5 (code evaluated at the failing input): a row whose label
cell is empty (NaN) with key "client_name" yields a descriptor whose
label is the literal string "nan", not the key — pandas Series.get only
applies the passed default when the column is absent, which column
validation rules out, so the intended label-defaults-to-key fallback
never fires. -/
theorem c5_label_nan_bug :
    read_fields dfC5
      = Except.ok [{ label := "nan", key := "client_name", multiple := false, note := "" }] ∧
    ("nan" : String) ≠ "client_name" := by
  decide

/-- Claim C7 (counterexample): with the multiple column present but its
cell blank (NaN) and the type cell TRUE, the claim says the indicator is
false (multiple column present decides, empty cell meaning false); the
code falls through the blank multiple cell and takes TRUE from the type
column, producing true. -/
theorem c7_counterexample :
    dfC7.columns.contains "multiple" = true ∧
    rowGet dfC7.columns rowC7 "multiple" Cell.cNaN = Cell.cNaN ∧
    get_multiple_value dfC7.columns rowC7 = true ∧
    read_fields dfC7
      = Except.ok [{ label := "L", key := "k", multiple := true, note := "" }] := by
  decide

/-- Claim C8 (code evaluated at the failing input): a template folder
holding a structurally valid config and, as its only document file, the
temp-marker file "~$draft.docx", is reported fully valid with no errors:
validate_template globs every name containing ".doc" without excluding
the temp-marker prefix, so the zero-document fatal error the claim
requires is never raised. -/
theorem c8_temp_marker_validation_bug :
    pyStartswith "~$draft.docx" "~$" = true ∧
    validate_config dfC8 = { valid := true, errors := [], warnings := [] } ∧
    validate_template ["config.xlsx", "~$draft.docx"] (some dfC8)
      = { valid := true, errors := [], warnings := [] } := by
  decide

/-- Claim C3: parse_boolean passes booleans through; a string yields
true exactly when its trimmed upper-casing is one of TRUE, YES, Y, 1
(so FALSE, NO, N, 0, the empty string, and every other string yield
false, no error ever being raised); numeric values coerce by
truthiness. -/
theorem c3_parse_boolean_spec :
    (∀ b : Bool, parse_boolean (Cell.cBool b) = b) ∧
    (∀ s : String,
      parse_boolean (Cell.cStr s)
        = ["TRUE", "YES", "Y", "1"].contains (pyUpper (pyStrip s))) ∧
    (∀ n : Int, parse_boolean (Cell.cInt n) = (n != 0)) := by
  refine ⟨fun b => rfl, fun s => ?_, fun n => rfl⟩
  show (let u := pyUpper (pyStrip s);
    if u == "TRUE" then true
    else if u == "FALSE" then false
    else if ["YES", "Y", "1"].contains u then true
    else if ["NO", "N", "0", ""].contains u then false
    else false) = ["TRUE", "YES", "Y", "1"].contains (pyUpper (pyStrip s))
  generalize pyUpper (pyStrip s) = u
  by_cases h1 : u = "TRUE"
  · subst h1; decide
  · by_cases h2 : u = "FALSE"
    · subst h2; decide
    · by_cases h3 : u ∈ (["YES", "Y", "1"] : List String)
      · simp only [List.mem_cons, List.not_mem_nil, or_false] at h3
        rcases h3 with rfl | rfl | rfl <;> decide
      · by_cases h4 : u ∈ (["NO", "N", "0", ""] : List String)
        · simp only [List.mem_cons, List.not_mem_nil, or_false] at h4
          rcases h4 with rfl | rfl | rfl | rfl <;> decide
        · simp only [List.contains, List.elem_eq_mem, List.mem_cons,
            List.not_mem_nil, or_false]
          simp only [beq_iff_eq]
          simp [h1, h2, h3, h4]

/-- Claim C7 (amended): the multiple indicator is decided by the first
column in the fixed order multiple-then-type that is both present and
holds a non-blank cell; a present multiple column with a blank cell
falls through to the type column, and false results when no such column
exists. -/
theorem c7_multiple_preference_amended (cols : List String) (row : List Cell) :
    get_multiple_value cols row
      = (if cols.contains "multiple" && cellNonBlank (rowGet cols row "multiple" Cell.cNaN) then
           parse_boolean (rowGet cols row "multiple" Cell.cNaN)
         else if cols.contains "type" && cellNonBlank (rowGet cols row "type" Cell.cNaN) then
           parse_boolean (rowGet cols row "type" Cell.cNaN)
         else false) := by
  show multiple_loop cols row ["multiple", "type"] = _
  by_cases h1 : cols.contains "multiple" = true <;>
    by_cases h2 : cols.contains "type" = true <;>
      simp [multiple_loop, cellNonBlank, h1, h2] <;>
        by_cases h3 : pyLower (pyStrip (pyStr (rowGet cols row "multiple" Cell.cNaN))) = "nan" <;>
          by_cases h4 : pyLower (pyStrip (pyStr (rowGet cols row "multiple" Cell.cNaN))) = "" <;>
            simp [h3, h4] <;>
              by_cases h5 : pyLower (pyStrip (pyStr (rowGet cols row "type" Cell.cNaN))) = "nan" <;>
                by_cases h6 : pyLower (pyStrip (pyStr (rowGet cols row "type" Cell.cNaN))) = "" <;>
                  simp [h5, h6]

/-- Success of a batch result is exactly non-emptiness of its filled
list. -/
theorem fill_success_iff (env : FillEnv) (od : String) (files : List String)
    (ts : String) (tn : Option String) :
    (fill_multiple_documents env od files ts tn).result.success = true
      ↔ (fill_multiple_documents env od files ts tn).result.filled_files ≠ [] := by
  simp [fill_multiple_documents, List.length_pos]

/-- Claim C1: success is reported exactly when at least one file was
filled; in a two-file batch whose first source is missing and whose
second is a fillable modern-format file, the missing file contributes
one error naming it, processing continues, and the batch reports
success with one filled file and that one error. -/
theorem c1_fill_batch_partial_success
    (env : FillEnv) (od ts tn a b : String)
    (ha0 : pyStartswith a "~$" = false) (hb0 : pyStartswith b "~$" = false)
    (ha1 : env.fileExists a = false) (hb1 : env.fileExists b = true)
    (hb2 : (pyLower (fileSuffix b) == ".doc") = false)
    (hb3 : env.renderOk b = Except.ok ()) :
    (∀ files, ((fill_multiple_documents env od files ts (some tn)).result.success = true
        ↔ (fill_multiple_documents env od files ts (some tn)).result.filled_files ≠ [])) ∧
    (fill_multiple_documents env od [a, b] ts (some tn)).result.success = true ∧
    (fill_multiple_documents env od [a, b] ts (some tn)).result.filled_files.length = 1 ∧
    (fill_multiple_documents env od [a, b] ts (some tn)).result.errors
      = ["Template not found: " ++ a] := by
  refine ⟨fun files => fill_success_iff env od files ts (some tn), ?_, ?_, ?_⟩ <;>
    simp [fill_multiple_documents, fill_loop, fill_document, ha0, hb0, ha1, hb1, hb2, hb3]

/-- Witness for C1 at a concrete environment and batch. -/
theorem c1_fill_batch_partial_success_witness :
    (∀ files, ((fill_multiple_documents envW "out" files "TS" (some "tpl")).result.success = true
        ↔ (fill_multiple_documents envW "out" files "TS" (some "tpl")).result.filled_files ≠ [])) ∧
    (fill_multiple_documents envW "out" ["missing.docx", "b.docx"] "TS"
      (some "tpl")).result.success = true ∧
    (fill_multiple_documents envW "out" ["missing.docx", "b.docx"] "TS"
      (some "tpl")).result.filled_files.length = 1 ∧
    (fill_multiple_documents envW "out" ["missing.docx", "b.docx"] "TS"
      (some "tpl")).result.errors = ["Template not found: " ++ "missing.docx"] :=
  c1_fill_batch_partial_success envW "out" "TS" "tpl" "missing.docx" "b.docx"
    (by decide) (by decide) (by decide) (by decide) (by decide) rfl

/-- A batch whose names all start with the temp marker leaves the loop
state empty. -/
theorem fill_loop_all_temp (env : FillEnv) (of : String) (tf : Option String) :
    ∀ files : List String, (∀ f ∈ files, pyStartswith f "~$" = true) →
      fill_loop env of tf files
        = { filled := [], errors := [], outputs := [], warnings := [] } := by
  intro files h
  induction files with
  | nil => rfl
  | cons f fs ih =>
    have hf := h f (List.mem_cons_self f fs)
    simp [fill_loop, hf, ih (fun g hg => h g (List.mem_cons_of_mem f hg))]

/-- Claim C10: a batch whose file list is empty or contains only
temp-marker names still records the creation of the output folder and
returns success false with empty filled and error lists. -/
theorem c10_temp_only_batch (env : FillEnv) (od ts : String) (tn : Option String)
    (files : List String) (h : ∀ f ∈ files, pyStartswith f "~$" = true) :
    (fill_multiple_documents env od files ts tn).result.success = false ∧
    (fill_multiple_documents env od files ts tn).result.filled_files = [] ∧
    (fill_multiple_documents env od files ts tn).result.errors = [] ∧
    (fill_multiple_documents env od files ts tn).result.output_folder
      ∈ (fill_multiple_documents env od files ts tn).created_dirs := by
  simp [fill_multiple_documents, fill_loop_all_temp env _ _ files h]

/-- Witness for C10 at a concrete environment and a one-element
temp-marker batch. -/
theorem c10_temp_only_batch_witness :
    (fill_multiple_documents envW "out" ["~$a.docx"] "TS" (some "tpl")).result.success = false ∧
    (fill_multiple_documents envW "out" ["~$a.docx"] "TS" (some "tpl")).result.filled_files = [] ∧
    (fill_multiple_documents envW "out" ["~$a.docx"] "TS" (some "tpl")).result.errors = [] ∧
    (fill_multiple_documents envW "out" ["~$a.docx"] "TS" (some "tpl")).result.output_folder
      ∈ (fill_multiple_documents envW "out" ["~$a.docx"] "TS" (some "tpl")).created_dirs :=
  c10_temp_only_batch envW "out" "TS" (some "tpl") ["~$a.docx"] (by decide)

/-- Inserting a file that copy-falls-back anywhere into a batch adds no
error, adds exactly one filled entry, and records its copied output and
its warning. -/
theorem fill_loop_insert_copy (env : FillEnv) (of tf f : String)
    (h0 : pyStartswith f "~$" = false) (h1 : env.fileExists f = true)
    (hf : fill_document env f = OneResult.success (OutDoc.copied (env.content f)) true) :
    ∀ pre post : List String,
      (fill_loop env of (some tf) (pre ++ f :: post)).errors
        = (fill_loop env of (some tf) (pre ++ post)).errors ∧
      (fill_loop env of (some tf) (pre ++ f :: post)).filled.length
        = (fill_loop env of (some tf) (pre ++ post)).filled.length + 1 ∧
      (tf ++ "/" ++ f) ∈ (fill_loop env of (some tf) (pre ++ f :: post)).filled ∧
      (of ++ "/" ++ f, OutDoc.copied (env.content f))
        ∈ (fill_loop env of (some tf) (pre ++ f :: post)).outputs ∧
      docWarning f ∈ (fill_loop env of (some tf) (pre ++ f :: post)).warnings := by
  intro pre post
  induction pre with
  | nil =>
    simp only [List.nil_append]
    simp [fill_loop, h0, h1, hf]
  | cons p ps ih =>
    obtain ⟨ih1, ih2, ih3, ih4, ih5⟩ := ih
    simp only [List.cons_append]
    by_cases hp : pyStartswith p "~$" = true
    · simp [fill_loop, hp, ih1, ih2, ih3, ih4, ih5]
    · have hp' : pyStartswith p "~$" = false := by simpa using hp
      by_cases hq : env.fileExists p = true
      · cases hfd : fill_document env p with
        | success out w =>
          cases w <;>
            simp [fill_loop, hp', hq, hfd, ih1, ih2, ih3, ih4, ih5, List.mem_cons]
        | failure msg =>
          simp [fill_loop, hp', hq, hfd, ih1, ih2, ih3, ih4, ih5]
      · have hq' : env.fileExists p = false := by simpa using hq
        simp [fill_loop, hp', hq', ih1, ih2, ih3, ih4, ih5]

/-- Claim C9: a legacy .doc file whose external conversion fails is
filled by fallback: fill_document succeeds with a byte-for-byte copy of
the original and the warning flag; inside any batch the file adds no
error entry, adds exactly one filled entry (its relative path), writes
the copied bytes under the output folder with the original name, and
prints the fallback warning. -/
theorem c9_doc_conversion_fallback (env : FillEnv) (od ts tn f : String)
    (pre post : List String)
    (h0 : pyStartswith f "~$" = false)
    (h1 : env.fileExists f = true)
    (h2 : (pyLower (fileSuffix f) == ".doc") = true)
    (h3 : env.convertOk f = false) :
    fill_document env f = OneResult.success (OutDoc.copied (env.content f)) true ∧
    (fill_multiple_documents env od (pre ++ f :: post) ts (some tn)).result.errors
      = (fill_multiple_documents env od (pre ++ post) ts (some tn)).result.errors ∧
    (fill_multiple_documents env od (pre ++ f :: post) ts (some tn)).result.filled_files.length
      = (fill_multiple_documents env od (pre ++ post) ts (some tn)).result.filled_files.length
        + 1 ∧
    ((ts ++ "_" ++ tn) ++ "/" ++ f)
      ∈ (fill_multiple_documents env od (pre ++ f :: post) ts (some tn)).result.filled_files ∧
    ((od ++ "/" ++ (ts ++ "_" ++ tn)) ++ "/" ++ f, OutDoc.copied (env.content f))
      ∈ (fill_multiple_documents env od (pre ++ f :: post) ts (some tn)).outputs ∧
    docWarning f
      ∈ (fill_multiple_documents env od (pre ++ f :: post) ts (some tn)).warnings_printed := by
  have hfd : fill_document env f = OneResult.success (OutDoc.copied (env.content f)) true := by
    simp [fill_document, h1, h2, h3]
  have h := fill_loop_insert_copy env (od ++ "/" ++ (ts ++ "_" ++ tn)) (ts ++ "_" ++ tn) f
    h0 h1 hfd pre post
  obtain ⟨g1, g2, g3, g4, g5⟩ := h
  refine ⟨hfd, ?_, ?_, ?_, ?_, ?_⟩ <;>
    simpa [fill_multiple_documents] using by assumption

/-- Witness for C9 at a concrete environment, a concrete legacy file
and a concrete batch. -/
theorem c9_doc_conversion_fallback_witness :
    fill_document envW "legacy.doc"
      = OneResult.success (OutDoc.copied (envW.content "legacy.doc")) true ∧
    (fill_multiple_documents envW "out" ([] ++ "legacy.doc" :: ["b.docx"]) "TS"
      (some "tpl")).result.errors
      = (fill_multiple_documents envW "out" ([] ++ ["b.docx"]) "TS"
        (some "tpl")).result.errors ∧
    (fill_multiple_documents envW "out" ([] ++ "legacy.doc" :: ["b.docx"]) "TS"
      (some "tpl")).result.filled_files.length
      = (fill_multiple_documents envW "out" ([] ++ ["b.docx"]) "TS"
        (some "tpl")).result.filled_files.length + 1 ∧
    (("TS" ++ "_" ++ "tpl") ++ "/" ++ "legacy.doc")
      ∈ (fill_multiple_documents envW "out" ([] ++ "legacy.doc" :: ["b.docx"]) "TS"
        (some "tpl")).result.filled_files ∧
    (("out" ++ "/" ++ ("TS" ++ "_" ++ "tpl")) ++ "/" ++ "legacy.doc",
        OutDoc.copied (envW.content "legacy.doc"))
      ∈ (fill_multiple_documents envW "out" ([] ++ "legacy.doc" :: ["b.docx"]) "TS"
        (some "tpl")).outputs ∧
    docWarning "legacy.doc"
      ∈ (fill_multiple_documents envW "out" ([] ++ "legacy.doc" :: ["b.docx"]) "TS"
        (some "tpl")).warnings_printed :=
  c9_doc_conversion_fallback envW "out" "TS" "tpl" "legacy.doc" [] ["b.docx"]
    (by decide) (by decide) (by decide) rfl

/-- A row parses to none exactly when its trimmed stringified key is
empty or lower-cases to "nan". -/
theorem parse_row_eq_none_iff (cols : List String) (row : List Cell) :
    parse_row cols row = none
      ↔ (rowKey cols row = "" ∨ pyLower (rowKey cols row) = "nan") := by
  by_cases h : (rowKey cols row == "" || pyLower (rowKey cols row) == "nan") = true
  · have h' := h
    simp only [Bool.or_eq_true, beq_iff_eq] at h'
    simp [parse_row, h, h']
  · have h' := h
    simp only [Bool.or_eq_true, beq_iff_eq] at h'
    push_neg at h'
    simp [parse_row, h, h']

/-- The parsed fields carry exactly the trimmed keys of the kept rows,
in spreadsheet row order. -/
theorem parse_keys_eq (cols : List String) :
    ∀ rows : List (List Cell),
      (rows.filterMap (parse_row cols)).map Field.key
        = (rows.filter (codeKeptRow cols)).map (rowKey cols) := by
  intro rows
  induction rows with
  | nil => rfl
  | cons r rs ih =>
    by_cases h : (rowKey cols r == "" || pyLower (rowKey cols r) == "nan") = true
    · have hnone : parse_row cols r = none := by simp [parse_row, h]
      have hkeep : codeKeptRow cols r = false := by simp [codeKeptRow, h]
      simp [List.filterMap_cons, List.filter_cons, hnone, hkeep, ih]
    · have hsome : parse_row cols r
        = some { label := pyStr (rowGet cols r "label" (Cell.cStr (rowKey cols r)))
                 key := rowKey cols r
                 multiple := get_multiple_value cols r
                 note := pyStr (rowGet cols r "note" (Cell.cStr "")) } := by
        simp [parse_row, h]
      have hkeep : codeKeptRow cols r = true := by
        simp only [codeKeptRow]
        simp [h]
      simp [List.filterMap_cons, List.filter_cons, hsome, hkeep, ih]

/-- When both required columns are present, read_fields succeeds with
the filterMap of the row parser. -/
theorem read_fields_ok_of_columns (df : DataFrame)
    (h : (EXCEL_REQUIRED_COLUMNS.all (fun c => df.columns.contains c)) = true) :
    read_fields df = Except.ok (df.rows.filterMap (parse_row df.columns)) := by
  have h' := h
  simp only [EXCEL_REQUIRED_COLUMNS, List.all_cons, List.all_nil, Bool.and_eq_true,
    Bool.and_true] at h'
  have h1 : "label" ∈ df.columns := by
    have hc := h'.1
    simpa [List.contains, List.elem_eq_mem] using hc
  have h2 : "key" ∈ df.columns := by
    have hc := h'.2
    simpa [List.contains, List.elem_eq_mem] using hc
  simp [read_fields, parse_dataframe, validate_columns, EXCEL_REQUIRED_COLUMNS, h1, h2]

/-- When a required column is missing, read_fields fails with the
wrapped missing-columns message. -/
theorem read_fields_error_of_missing (df : DataFrame)
    (h : (EXCEL_REQUIRED_COLUMNS.all (fun c => df.columns.contains c)) = false) :
    read_fields df = Except.error ("Error reading Excel file: " ++
      ("Missing required columns: " ++
        pyJoin ", " (EXCEL_REQUIRED_COLUMNS.filter (fun c => !df.columns.contains c)) ++
        "\nRequired columns: " ++ pyJoin ", " EXCEL_REQUIRED_COLUMNS ++
        "\nFound columns: " ++ pyJoin ", " df.columns)) := by
  by_cases m1 : "label" ∈ df.columns <;> by_cases m2 : "key" ∈ df.columns
  · exfalso
    have hall : (EXCEL_REQUIRED_COLUMNS.all (fun c => df.columns.contains c)) = true := by
      simp [EXCEL_REQUIRED_COLUMNS, List.contains, List.elem_eq_mem, m1, m2]
    rw [hall] at h
    cases h
  all_goals
    simp [read_fields, parse_dataframe, validate_columns, EXCEL_REQUIRED_COLUMNS,
      List.contains, List.elem_eq_mem, m1, m2]

/-- Claim C2 (amended): a spreadsheet missing either required column
makes read_fields fail; a spreadsheet with both succeeds, with exactly
one descriptor per row whose trimmed stringified key is non-empty and
not case-insensitively equal to "nan", in spreadsheet row order (the
result keys are exactly the kept rows' keys in order). -/
theorem c2_read_fields_amended (df : DataFrame) :
    ((EXCEL_REQUIRED_COLUMNS.all (fun c => df.columns.contains c)) = false →
      ∃ e, read_fields df = Except.error e) ∧
    ((EXCEL_REQUIRED_COLUMNS.all (fun c => df.columns.contains c)) = true →
      ∃ fields, read_fields df = Except.ok fields ∧
        fields.map Field.key
          = (df.rows.filter (codeKeptRow df.columns)).map (rowKey df.columns)) := by
  constructor
  · intro h
    exact ⟨_, read_fields_error_of_missing df h⟩
  · intro h
    exact ⟨_, read_fields_ok_of_columns df h, parse_keys_eq df.columns df.rows⟩

/-- Witness for C2 at a spreadsheet missing the key column and at one
with both columns. -/
theorem c2_read_fields_amended_witness :
    (∃ e, read_fields dfBadC2 = Except.error e) ∧
    (∃ fields, read_fields dfGoodC2 = Except.ok fields ∧
      fields.map Field.key
        = (dfGoodC2.rows.filter (codeKeptRow dfGoodC2.columns)).map (rowKey dfGoodC2.columns)) :=
  ⟨(c2_read_fields_amended dfBadC2).1 (by decide),
   (c2_read_fields_amended dfGoodC2).2 (by decide)⟩

/-- Claim C4 (amended): with both required columns present, read_fields
succeeds with one descriptor per kept row, a row being excluded exactly
when its trimmed stringified key is empty or lower-cases to "nan"
(reading is a pure function of the spreadsheet, so reading twice yields
identical lists). -/
theorem c4_row_exclusion_amended (df : DataFrame)
    (h : (EXCEL_REQUIRED_COLUMNS.all (fun c => df.columns.contains c)) = true) :
    ∃ fields, read_fields df = Except.ok fields ∧
      fields.length = (df.rows.filter (codeKeptRow df.columns)).length ∧
      (∀ row, parse_row df.columns row = none
        ↔ (rowKey df.columns row = "" ∨ pyLower (rowKey df.columns row) = "nan")) := by
  refine ⟨_, read_fields_ok_of_columns df h, ?_,
    fun row => parse_row_eq_none_iff df.columns row⟩
  have hk := parse_keys_eq df.columns df.rows
  have hl := congrArg List.length hk
  simpa [List.length_map] using hl

/-- Witness for C4 at the spreadsheet whose single key trims to
"NaN". -/
theorem c4_row_exclusion_amended_witness :
    ∃ fields, read_fields dfC4 = Except.ok fields ∧
      fields.length = (dfC4.rows.filter (codeKeptRow dfC4.columns)).length ∧
      (∀ row, parse_row dfC4.columns row = none
        ↔ (rowKey dfC4.columns row = "" ∨ pyLower (rowKey dfC4.columns row) = "nan")) :=
  c4_row_exclusion_amended dfC4 (by decide)

/-- Prefix test fails when the heads differ. -/
theorem isPrefixOf_cons_false (c d : Char) (h : (c == d) = false) (l1 l2 : List Char) :
    List.isPrefixOf (c :: l1) (d :: l2) = false := by
  simp [List.isPrefixOf_cons₂, h]

/-- A list is a prefix of itself followed by anything. -/
theorem isPrefixOf_append_self (l m : List Char) : List.isPrefixOf l (l ++ m) = true := by
  induction l with
  | nil => simp
  | cons c cs ih => simp [List.isPrefixOf_cons₂, ih]

/-- The duplicate-keys message starts with its own prefix. -/
theorem pyStartswith_dup_self (t : String) :
    pyStartswith ("Duplicate field keys found: " ++ t) "Duplicate field keys found: " = true := by
  show List.isPrefixOf "Duplicate field keys found: ".data
    ("Duplicate field keys found: ".data ++ t.data) = true
  exact isPrefixOf_append_self _ _

/-- Multiple-column errors never look like duplicate-key errors. -/
theorem pyStartswith_row_not_dup (t : String) :
    pyStartswith ("Row " ++ t) "Duplicate field keys found: " = false := by
  show List.isPrefixOf ('D' :: "uplicate field keys found: ".data)
    ('R' :: ("ow ".data ++ t.data)) = false
  exact isPrefixOf_cons_false 'D' 'R' (by decide) _ _

/-- Key-format errors never look like duplicate-key errors. -/
theorem pyStartswith_invalid_not_dup (t : String) :
    pyStartswith ("Invalid key format " ++ t) "Duplicate field keys found: " = false := by
  show List.isPrefixOf ('D' :: "uplicate field keys found: ".data)
    ('I' :: ("nvalid key format ".data ++ t.data)) = false
  exact isPrefixOf_cons_false 'D' 'I' (by decide) _ _

/-- Every produced multiple-column error is a Row-prefixed message. -/
theorem multiple_row_error_shape (rownum : Nat) (value : Cell) (e : String)
    (h : multiple_row_error rownum value = some e) : ∃ t, e = "Row " ++ t := by
  unfold multiple_row_error at h
  split at h
  · exact absurd h (by simp)
  · split at h
    · exact ⟨_, (Option.some_inj.mp h).symm⟩
    · exact absurd h (by simp)

/-- Every element of the multiple-column error list is a Row-prefixed
message. -/
theorem validate_multiple_column_shape (df : DataFrame) :
    ∀ e ∈ validate_multiple_column df, ∃ t, e = "Row " ++ t := by
  intro e he
  unfold validate_multiple_column at he
  by_cases hcol : df.columns.contains "multiple" = true
  · rw [if_pos hcol] at he
    obtain ⟨p, hp, hfe⟩ := List.mem_filterMap.mp he
    exact multiple_row_error_shape p.1 _ e hfe
  · rw [if_neg hcol] at he
    cases he

/-- Claim C6: whenever the parsed fields contain a duplicated key, the
validation report holds exactly one error bearing the aggregated
duplicate-key message prefix, however many rows share keys. -/
theorem c6_duplicate_keys_single_error (df : DataFrame) (fields : List Field)
    (hok : read_fields df = Except.ok fields)
    (hdup : ∃ k, 1 < (fields.map Field.key).count k) :
    (validate_config df).errors.countP
      (fun e => pyStartswith e "Duplicate field keys found: ") = 1 := by
  obtain ⟨k, hk⟩ := hdup
  have hne : fields ≠ [] := by
    intro hnil
    subst hnil
    simp at hk
  have hlen : (fields.length == 0) = false := by
    cases fields with
    | nil => exact absurd rfl hne
    | cons f fs => rfl
  have hkmem : k ∈ fields.map Field.key :=
    List.count_pos_iff.mp (Nat.lt_trans Nat.zero_lt_one hk)
  have hdups : (fields.map Field.key).filter
      (fun x => decide (1 < (fields.map Field.key).count x)) ≠ [] := by
    intro hnil
    have hmm : k ∈ (fields.map Field.key).filter
        (fun x => decide (1 < (fields.map Field.key).count x)) :=
      List.mem_filter.mpr ⟨hkmem, by simpa using hk⟩
    rw [hnil] at hmm
    cases hmm
  have hdups' : ((fields.map Field.key).filter
      (fun x => decide (1 < (fields.map Field.key).count x))).isEmpty = false := by
    cases hcase : (fields.map Field.key).filter
        (fun x => decide (1 < (fields.map Field.key).count x)) with
    | nil => exact absurd hcase hdups
    | cons a as => rfl
  simp only [validate_config, hok]
  simp only [hlen, hdups', if_false, Bool.not_false, if_true, List.countP_append]
  have hvmc : (validate_multiple_column df).countP
      (fun e => pyStartswith e "Duplicate field keys found: ") = 0 := by
    rw [List.countP_eq_zero]
    intro e he
    obtain ⟨t, rfl⟩ := validate_multiple_column_shape df e he
    simp [pyStartswith_row_not_dup]
  have hkerr : ((fields.filter (fun f => !is_valid_key f.key)).map
      (fun f => "Invalid key format " ++ (sq ++ f.key ++ sq ++
        " - use only letters, numbers, and underscores"))).countP
      (fun e => pyStartswith e "Duplicate field keys found: ") = 0 := by
    rw [List.countP_eq_zero]
    intro e he
    obtain ⟨f, hf, rfl⟩ := List.mem_map.mp he
    simp [pyStartswith_invalid_not_dup]
  simp [hvmc, hkerr, List.countP_cons, pyStartswith_dup_self]

/-- Witness for C6 at the duplicate-laden spreadsheet, three rows
sharing one key and two sharing another. -/
theorem c6_duplicate_keys_single_error_witness :
    (validate_config dfC6).errors.countP
      (fun e => pyStartswith e "Duplicate field keys found: ") = 1 :=
  c6_duplicate_keys_single_error dfC6
    [{ label := "A", key := "k1", multiple := false, note := "" },
     { label := "B", key := "k1", multiple := false, note := "" },
     { label := "C", key := "k1", multiple := false, note := "" },
     { label := "D", key := "k2", multiple := false, note := "" },
     { label := "E", key := "k2", multiple := false, note := "" }]
    (by decide) ⟨"k1", by decide⟩

end DocuFill
